import Mathlib

/-!
Shallow embedding of `src/static/app.js`, the browser-side UI controller of
NMRScraperServer, together with theorems checking the specification's claims
about it.

Modelling conventions:
* DOM trees built by the script are values of `Dom`; `className`, the
  `rows`/`readOnly` properties and the `value` property of a textarea are
  recorded as attributes, and `textContent` as a single text child.
* A network interaction is the input `FetchOutcome` handed to a handler:
  either the fetch promise rejected, or an HTTP response arrived with a
  status, a body text (as read by `res.text()`), and the result of
  `res.json()` parsed into the shape the handler destructures
  (`Except.error` when the body is not JSON of that shape, carrying the
  engine-supplied rejection message).
* A JavaScript field that may be `undefined` is an `Option`; assigning a
  possibly-undefined value to an element's `value` coerces `undefined` to
  the string "undefined" (`jsValueString`).
* `String.prototype.trim` is modelled by `jsTrim`, trimming characters
  satisfying `Char.isWhitespace` from both ends.
* Each click handler is a pure function from the pre-click UI state and the
  asynchronous inputs (fetch outcome, clipboard outcome) to the states the
  DOM passes through: the state while the request is in flight and the
  state after the handler finishes.
-/

/-- A DOM node: an element with a tag, attributes and children, or a text
node (the result of assigning `textContent`). -/
inductive Dom where
  | elem (tag : String) (attrs : List (String × String)) (children : List Dom)
  | text (s : String)
deriving Repr

/-- The Table shape of §3 of the spec, as consumed by the renderers in
`app.js`: every field may be absent (`undefined` in the parsed JSON). -/
structure Table where
  title : Option String
  headers : Option (List String)
  rows : Option (List (List String))
deriving Repr

/-- Drop leading characters satisfying `Char.isWhitespace`. -/
def dropWhileWs : List Char → List Char
  | [] => []
  | c :: cs => if c.isWhitespace then dropWhileWs cs else c :: cs

/-- Model of `String.prototype.trim`: remove whitespace from both ends. -/
def jsTrim (s : String) : String :=
  String.mk ((dropWhileWs ((dropWhileWs s.toList).reverse)).reverse)

/-- JavaScript `a || b` on a string `a`: the empty string is falsy. -/
def jsOrString (a b : String) : String :=
  if a = "" then b else a

/-- JavaScript `a || b` where `a` is a possibly-undefined string field. -/
def jsOrUndef (a : Option String) (b : String) : String :=
  match a with
  | none => b
  | some s => if s = "" then b else s

/-- Assigning a possibly-undefined JavaScript value to `el.value`: the
`undefined` value is coerced to the string "undefined". -/
def jsValueString : Option String → String
  | some s => s
  | none => "undefined"

/-- One hexadecimal digit, lower case, as emitted by `JSON.stringify` for
control-character escapes. -/
def hexDigit (n : Nat) : Char :=
  if n < 10 then Char.ofNat (48 + n) else Char.ofNat (87 + n)

/-- The escape `JSON.stringify` applies to one character of a string. -/
def jsonEscapeChar (c : Char) : String :=
  if c = '"' then "\\\""
  else if c = '\\' then "\\\\"
  else if c = '\x08' then "\\b"
  else if c = '\x09' then "\\t"
  else if c = '\x0a' then "\\n"
  else if c = '\x0c' then "\\f"
  else if c = '\x0d' then "\\r"
  else if c.toNat < 32 then
    "\\u00" ++ String.mk [hexDigit (c.toNat / 16), hexDigit (c.toNat % 16)]
  else String.singleton c

/-- `JSON.stringify` of a string value. -/
def jsonQuote (s : String) : String :=
  "\"" ++ String.join (s.toList.map jsonEscapeChar) ++ "\""

/-- `JSON.stringify(xs, null, 2)` of an array of strings, printed at outer
indentation `gap` (JavaScript pretty-printing with a two-space indent). -/
def stringifyStringArray (gap : String) (xs : List String) : String :=
  match xs with
  | [] => "[]"
  | _ =>
    let g := gap ++ "  "
    "[\n" ++ g ++ String.intercalate (",\n" ++ g) (xs.map jsonQuote) ++ "\n" ++ gap ++ "]"

/-- `JSON.stringify(rows, null, 2)` of an array of arrays of strings at
outer indentation `gap`. -/
def stringifyRowArray (gap : String) (rows : List (List String)) : String :=
  match rows with
  | [] => "[]"
  | _ =>
    let g := gap ++ "  "
    "[\n" ++ g ++ String.intercalate (",\n" ++ g) (rows.map (stringifyStringArray g)) ++
      "\n" ++ gap ++ "]"

/-- The `"key": value` member strings of `JSON.stringify(table, null, 2)`,
one per present field, in the field order title, headers, rows (the
insertion order of the parsed backend JSON per §3). -/
def tableJsonMembers (t : Table) : List String :=
  (match t.title with
   | some s => ["\"title\": " ++ jsonQuote s]
   | none => []) ++
  (match t.headers with
   | some hs => ["\"headers\": " ++ stringifyStringArray "  " hs]
   | none => []) ++
  (match t.rows with
   | some rows => ["\"rows\": " ++ stringifyRowArray "  " rows]
   | none => [])

/-- `JSON.stringify(table, null, 2)`, the value placed in the per-table
JSON textarea by `renderTableBlock`. -/
def jsonStringifyTable (t : Table) : String :=
  match tableJsonMembers t with
  | [] => "\x7b\x7d"
  | ms => "\x7b\n  " ++ String.intercalate ",\n  " ms ++ "\n\x7d"

/-- `renderReadonlyTable` of `app.js`: builds a `table.editable-table`
element with a `thead` row of `th` cells from `table.headers || []` and a
`tbody` of `tr` rows of `td` cells from `table.rows || []`. -/
def renderReadonlyTable (table : Table) : Dom :=
  let thr := Dom.elem "tr" []
    ((table.headers.getD []).map (fun h => Dom.elem "th" [] [Dom.text h]))
  let thead := Dom.elem "thead" [] [thr]
  let tbody := Dom.elem "tbody" []
    ((table.rows.getD []).map (fun row =>
      Dom.elem "tr" [] (row.map (fun cell => Dom.elem "td" [] [Dom.text cell]))))
  Dom.elem "table" [("class", "editable-table")] [thead, tbody]

/-- `renderTableBlock` of `app.js`: the `div.table-block` appended to the
container for one table, holding the title line (with
`(table.title || "").trim() || "(untitled)"`), the read-only table, the
JSON label, the read-only JSON textarea whose value is
`JSON.stringify(table, null, 2)`, and the actions row with the
`Copy JSON` button. -/
def renderTableBlock (table : Table) : Dom :=
  let titleWrap := Dom.elem "div" [("class", "title-wrap")]
    [ Dom.elem "div" [("class", "label inline")] [Dom.text "Title"],
      Dom.elem "div" []
        [Dom.text (jsOrString (jsTrim (jsOrUndef table.title "")) "(untitled)")] ]
  let tableEl := renderReadonlyTable table
  let jsonLabel := Dom.elem "label" [("class", "label")] [Dom.text "Table JSON"]
  let jsonOut := Dom.elem "textarea"
    [("class", "textarea condensed-output"), ("rows", "8"), ("readonly", "true"),
     ("value", jsonStringifyTable table)] []
  let jsonActions := Dom.elem "div" [("class", "actions")]
    [Dom.elem "button" [("class", "btn secondary")] [Dom.text "Copy JSON"]]
  Dom.elem "div" [("class", "table-block")]
    [titleWrap, tableEl, jsonLabel, jsonOut, jsonActions]

/-- `renderTables` of `app.js` as the new child list of the
`tables-output` mount (the mount is cleared first, so the result replaces
any previous content): the hint paragraph when `!tables || tables.length
=== 0`, else one block per table. `none` models a null or undefined
`tables` value. -/
def renderTables (tables : Option (List Table)) : List Dom :=
  match tables with
  | none => [Dom.elem "p" [("class", "hint")] [Dom.text "No tables found."]]
  | some ts =>
    if ts.length = 0 then [Dom.elem "p" [("class", "hint")] [Dom.text "No tables found."]]
    else ts.map renderTableBlock

/-- The error thrown inside `postJSON` or propagated through it: the
explicit `Request failed` error for a non-ok response, or any other
rejection (network failure, `res.json()` parse rejection) with its
engine-supplied message. -/
inductive JsError where
  | requestFailed (status : Nat) (bodyText : String)
  | other (msg : String)
deriving Repr

/-- The `message` property of the thrown error, as interpolated by the
handlers. -/
def JsError.message : JsError → String
  | JsError.requestFailed status bodyText =>
      "Request failed: " ++ toString status ++ " " ++ bodyText
  | JsError.other msg => msg

/-- The asynchronous input observed by one `postJSON` call: a rejected
fetch, or an HTTP response with its status, `res.text()` body, and the
result of parsing the body into the shape `α` the caller destructures. -/
inductive FetchOutcome (α : Type) where
  | networkError (msg : String)
  | httpResponse (status : Nat) (bodyText : String) (json : Except String α)

/-- `postJSON` of `app.js`: succeeds with the parsed JSON body when the
response is ok (`res.ok`, i.e. status 200..299), and otherwise throws
`Request failed: {status} {text}`; fetch rejections and `res.json()`
rejections propagate unchanged. -/
def postJSON {α : Type} : FetchOutcome α → Except JsError α
  | FetchOutcome.networkError msg => Except.error (JsError.other msg)
  | FetchOutcome.httpResponse status bodyText json =>
    if 200 ≤ status ∧ status ≤ 299 then
      match json with
      | Except.ok v => Except.ok v
      | Except.error msg => Except.error (JsError.other msg)
    else Except.error (JsError.requestFailed status bodyText)

/-- The success body shape destructured by the condense handler:
`{ condensed }`, where the field may be absent. -/
structure CondenseResult where
  condensed : Option String
deriving Repr

/-- The success body shape destructured by the parse handler:
`{ tables }`, where the field may be absent. -/
structure ParseTablesResult where
  tables : Option (List Table)

/-- The pieces of document state the condense click handler reads and
writes: the `article-input` value, the `article-output` value, and the
`process-article-btn` disabled flag and label. -/
structure CondenseUI where
  articleInput : String
  articleOutput : String
  processBtnDisabled : Bool
  processBtnText : String

/-- The `process-article-btn` click handler: disables the button and sets
it to "Processing..." for the duration of the request, then on success
writes the returned `condensed` value into `article-output`, on failure
writes `Error: {e.message}` there, and in all cases re-enables the button
and restores the label "Process". Returns the in-flight state and the
final state. -/
def processArticleClick (ui : CondenseUI) (outcome : FetchOutcome CondenseResult) :
    CondenseUI × CondenseUI :=
  let during : CondenseUI :=
    { ui with processBtnDisabled := true, processBtnText := "Processing..." }
  let newOutput : String :=
    match postJSON outcome with
    | Except.ok r => jsValueString r.condensed
    | Except.error e => "Error: " ++ e.message
  (during,
   { during with articleOutput := newOutput,
                 processBtnDisabled := false, processBtnText := "Process" })

/-- Content of the `tables-output` mount: DOM children appended by
`renderTables`, or a raw `innerHTML` string written by the catch branch. -/
inductive MountContent where
  | rendered (children : List Dom)
  | rawHtml (html : String)

/-- The pieces of document state the parse click handler reads and writes:
the `gpt-input` value, the `parse-tables-btn` disabled flag and label, and
the `tables-output` mount content. -/
structure ParseUI where
  gptInput : String
  parseBtnDisabled : Bool
  parseBtnText : String
  tablesOutput : MountContent

/-- The `parse-tables-btn` click handler: disables the button and sets it
to "Parsing..." for the duration of the request, then on success replaces
the mount content with `renderTables tables`, on failure replaces it with
the inline error paragraph HTML, and in all cases re-enables the button
and restores the label "Parse tables". Returns the in-flight state and
the final state. -/
def parseTablesClick (ui : ParseUI) (outcome : FetchOutcome ParseTablesResult) :
    ParseUI × ParseUI :=
  let during : ParseUI :=
    { ui with parseBtnDisabled := true, parseBtnText := "Parsing..." }
  let afterTry : ParseUI :=
    match postJSON outcome with
    | Except.ok r => { during with tablesOutput := MountContent.rendered (renderTables r.tables) }
    | Except.error e =>
        { during with tablesOutput :=
            MountContent.rawHtml ("<p class=\"error\">Error: " ++ e.message ++ "</p>") }
  (during, { afterTry with parseBtnDisabled := false, parseBtnText := "Parse tables" })

/-- Whether the `navigator.clipboard.writeText` promise resolved or
rejected (with its message); an input to the copy handlers. -/
inductive ClipboardOutcome where
  | resolved
  | rejected (msg : String)

/-- `copyToClipboard` of `app.js`: forwards the `writeText` promise — on
resolution the given text is on the clipboard, on rejection the error
propagates. -/
def copyToClipboard (text : String) : ClipboardOutcome → Except String String
  | ClipboardOutcome.resolved => Except.ok text
  | ClipboardOutcome.rejected msg => Except.error msg

/-- What one click of a copy button did: the text placed on the clipboard
(if any), the button label right after the handler ran, the scheduled
`setTimeout` label revert (delay in ms and the text it will set), and the
rejection, if any, that escaped the async handler unhandled. -/
structure CopyClickResult where
  clipboardWritten : Option String
  btnText : String
  scheduledRevert : Option (Nat × String)
  unhandledRejection : Option String

/-- Modelled from the spec: the `copy-article-btn` element is created by
the static HTML page, which is not under `src/`; per the spec's
"Copy condensed text" operation its initial label is "Copy condensed",
the same string the handler's timeout restores. -/
def copyArticleBtnInitialLabel : String := "Copy condensed"

/-- The `copy-article-btn` click handler: awaits the clipboard write of
the current `article-output` value; on resolution sets the label to
"Copied!" and schedules a 1200 ms revert to "Copy condensed"; a rejection
escapes before any of that runs. `outputValue` is the current
`article-output` value and `btnTextBefore` the current button label. -/
def copyArticleClick (outputValue btnTextBefore : String) (clip : ClipboardOutcome) :
    CopyClickResult :=
  match copyToClipboard outputValue clip with
  | Except.ok written =>
      { clipboardWritten := some written, btnText := "Copied!",
        scheduledRevert := some (1200, copyArticleBtnInitialLabel),
        unhandledRejection := none }
  | Except.error msg =>
      { clipboardWritten := none, btnText := btnTextBefore,
        scheduledRevert := none, unhandledRejection := some msg }

/-- The per-block `Copy JSON` button click handler: awaits the clipboard
write of the current JSON textarea value; on resolution sets the label to
"Copied!" and schedules a 1200 ms revert to "Copy JSON"; a rejection
escapes before any of that runs. -/
def copyJsonClick (jsonOutValue btnTextBefore : String) (clip : ClipboardOutcome) :
    CopyClickResult :=
  match copyToClipboard jsonOutValue clip with
  | Except.ok written =>
      { clipboardWritten := some written, btnText := "Copied!",
        scheduledRevert := some (1200, "Copy JSON"),
        unhandledRejection := none }
  | Except.error msg =>
      { clipboardWritten := none, btnText := btnTextBefore,
        scheduledRevert := none, unhandledRejection := some msg }

/-- The text shown on the title line of a rendered table block. -/
def blockTitleText : Dom → Option String
  | Dom.elem _ _ (Dom.elem _ _ [_, Dom.elem _ _ [Dom.text s]] :: _) => some s
  | _ => none

/-- The `value` of the JSON textarea of a rendered table block (its fourth
child). -/
def blockJsonValue : Dom → Option String
  | Dom.elem _ _ [_, _, _, Dom.elem _ attrs _, _] =>
      (attrs.find? (fun p => p.1 = "value")).map Prod.snd
  | _ => none

/-- The label of the copy button of a rendered table block (inside its
fifth child). -/
def blockCopyBtnText : Dom → Option String
  | Dom.elem _ _ [_, _, _, _, Dom.elem _ _ [Dom.elem _ _ [Dom.text s]]] => some s
  | _ => none

/-- The `tbody` child of a rendered read-only table. -/
def tableTbody : Dom → Option Dom
  | Dom.elem _ _ [_, tb] => some tb
  | _ => none

/-- `pat` occurs as a contiguous substring of `s`. -/
def strSub (pat s : String) : Prop :=
  ∃ pre post : String, s = pre ++ (pat ++ post)

/-- Reassociation helper: splitting off the two leading segments of the
condense error message around an arbitrary middle segment. -/
theorem append_reassoc_four (A B ts S b : String) :
    A ++ (B ++ ts ++ S ++ b) = (A ++ B) ++ (ts ++ (S ++ b)) := by
  rw [String.append_assoc B ts S, String.append_assoc B (ts ++ S) b,
    String.append_assoc ts S b, ← String.append_assoc A B]

/-- Claim C1: for every condense request whose response is successful with
body `{condensed: x}`, the condense click handler writes exactly `x` into
the article-output field. -/
theorem condense_success_writes_condensed (ui : CondenseUI) (status : Nat)
    (bodyText x : String) (h1 : 200 ≤ status) (h2 : status ≤ 299) :
    ((processArticleClick ui
        (FetchOutcome.httpResponse status bodyText (Except.ok ⟨some x⟩))).2).articleOutput
      = x := by
  simp [processArticleClick, postJSON, h1, h2, jsValueString]

/-- Witness for C1 at a concrete 200 response carrying condensed "X". -/
theorem condense_success_writes_condensed_witness :
    ((200 ≤ 200 ∧ 200 ≤ 299) ∧
      ((processArticleClick ⟨"in", "", false, "Process"⟩
          (FetchOutcome.httpResponse 200 "\x7b\"condensed\": \"X\"\x7d"
            (Except.ok ⟨some "X"⟩))).2).articleOutput = "X") :=
  ⟨by decide,
    condense_success_writes_condensed ⟨"in", "", false, "Process"⟩ 200
      "\x7b\"condensed\": \"X\"\x7d" "X" (by decide) (by decide)⟩

/-- Claim C2: every non-2xx response becomes a `Request failed` failure
carrying the status code and the body text; the condense handler catches
it and writes into the output field an error message containing the
status code and the body text, and the parse handler catches it and
replaces the mount with an inline error paragraph carrying the same
message. -/
theorem http_error_surfaced (status : Nat) (bodyText : String)
    (ui : CondenseUI) (pui : ParseUI)
    (cj : Except String CondenseResult) (pj : Except String ParseTablesResult)
    (h : ¬ (200 ≤ status ∧ status ≤ 299)) :
    postJSON (FetchOutcome.httpResponse status bodyText cj) =
        Except.error (JsError.requestFailed status bodyText) ∧
      ((processArticleClick ui
          (FetchOutcome.httpResponse status bodyText cj)).2).articleOutput =
        "Error: " ++ ("Request failed: " ++ toString status ++ " " ++ bodyText) ∧
      strSub (toString status)
        ((processArticleClick ui
            (FetchOutcome.httpResponse status bodyText cj)).2).articleOutput ∧
      strSub bodyText
        ((processArticleClick ui
            (FetchOutcome.httpResponse status bodyText cj)).2).articleOutput ∧
      ((parseTablesClick pui
          (FetchOutcome.httpResponse status bodyText pj)).2).tablesOutput =
        MountContent.rawHtml
          ("<p class=\"error\">Error: " ++
            ("Request failed: " ++ toString status ++ " " ++ bodyText) ++ "</p>") := by
  have hpostC : postJSON (FetchOutcome.httpResponse status bodyText cj) =
      Except.error (JsError.requestFailed status bodyText) := by
    simp [postJSON, h]
  have hpostP : postJSON (FetchOutcome.httpResponse status bodyText pj) =
      Except.error (JsError.requestFailed status bodyText) := by
    simp [postJSON, h]
  have hout : ((processArticleClick ui
      (FetchOutcome.httpResponse status bodyText cj)).2).articleOutput =
      "Error: " ++ ("Request failed: " ++ toString status ++ " " ++ bodyText) := by
    simp [processArticleClick, hpostC, JsError.message]
  refine ⟨hpostC, hout, ?_, ?_, ?_⟩
  · exact ⟨"Error: " ++ "Request failed: ", " " ++ bodyText,
      by rw [hout, append_reassoc_four]⟩
  · exact ⟨"Error: " ++ ("Request failed: " ++ toString status ++ " "), "",
      by rw [hout]; simp [String.append_assoc, String.append_empty]⟩
  · simp [parseTablesClick, hpostP, JsError.message]

/-- Witness for C2 at a concrete 500 response with body "err". -/
theorem http_error_surfaced_witness :
    ((¬ (200 ≤ 500 ∧ 500 ≤ 299)) ∧
      ((processArticleClick ⟨"", "", false, "Process"⟩
          (FetchOutcome.httpResponse 500 "err" (Except.error "bad json"))).2).articleOutput =
        "Error: " ++ ("Request failed: " ++ toString 500 ++ " " ++ "err") ∧
      ("Error: " ++ ("Request failed: " ++ toString 500 ++ " " ++ "err") =
        "Error: Request failed: 500 err")) :=
  ⟨by decide,
    (http_error_surfaced 500 "err" ⟨"", "", false, "Process"⟩
        ⟨"", false, "Parse tables", MountContent.rendered []⟩
        (Except.error "bad json") (Except.error "bad json") (by decide)).2.1,
    rfl⟩

/-- Claim C3: rendering the single table
`{title:"T", headers:["a","b"], rows:[["1","2"]]}` yields exactly one
table block, whose JSON textarea value is the two-space-indented
`JSON.stringify` of the table, and whose read-only table has one header
row with cells "a","b" and one body row with cells "1","2". -/
theorem render_single_table_block :
    renderTables (some [⟨some "T", some ["a", "b"], some [["1", "2"]]⟩]) =
      [Dom.elem "div" [("class", "table-block")]
        [ Dom.elem "div" [("class", "title-wrap")]
            [ Dom.elem "div" [("class", "label inline")] [Dom.text "Title"],
              Dom.elem "div" [] [Dom.text "T"] ],
          Dom.elem "table" [("class", "editable-table")]
            [ Dom.elem "thead" []
                [Dom.elem "tr" []
                  [Dom.elem "th" [] [Dom.text "a"], Dom.elem "th" [] [Dom.text "b"]]],
              Dom.elem "tbody" []
                [Dom.elem "tr" []
                  [Dom.elem "td" [] [Dom.text "1"], Dom.elem "td" [] [Dom.text "2"]]] ],
          Dom.elem "label" [("class", "label")] [Dom.text "Table JSON"],
          Dom.elem "textarea"
            [("class", "textarea condensed-output"), ("rows", "8"), ("readonly", "true"),
             ("value",
              "\x7b\n  \"title\": \"T\",\n  \"headers\": [\n    \"a\",\n    \"b\"\n  ],\n  \"rows\": [\n    [\n      \"1\",\n      \"2\"\n    ]\n  ]\n\x7d")]
            [],
          Dom.elem "div" [("class", "actions")]
            [Dom.elem "button" [("class", "btn secondary")] [Dom.text "Copy JSON"]] ]] :=
  rfl

/-- Claim C4: a successful parse response with an empty table list makes
the handler replace the mount content, whatever it was, with exactly the
single "No tables found." hint and no table blocks. -/
theorem parse_empty_tables_shows_message (ui : ParseUI) (status : Nat)
    (bodyText : String) (h1 : 200 ≤ status) (h2 : status ≤ 299) :
    ((parseTablesClick ui
        (FetchOutcome.httpResponse status bodyText (Except.ok ⟨some []⟩))).2).tablesOutput =
      MountContent.rendered [Dom.elem "p" [("class", "hint")] [Dom.text "No tables found."]] := by
  simp [parseTablesClick, postJSON, h1, h2, renderTables]

/-- Witness for C4: a 200 response with `{tables: []}` over a mount that
previously held a rendered block. -/
theorem parse_empty_tables_shows_message_witness :
    ((200 ≤ 200 ∧ 200 ≤ 299) ∧
      ((parseTablesClick
          ⟨"md", false, "Parse tables",
            MountContent.rendered [Dom.elem "div" [("class", "table-block")] []]⟩
          (FetchOutcome.httpResponse 200 "\x7b\"tables\": []\x7d"
            (Except.ok ⟨some []⟩))).2).tablesOutput =
        MountContent.rendered
          [Dom.elem "p" [("class", "hint")] [Dom.text "No tables found."]]) :=
  ⟨by decide,
    parse_empty_tables_shows_message
      ⟨"md", false, "Parse tables",
        MountContent.rendered [Dom.elem "div" [("class", "table-block")] []]⟩
      200 "\x7b\"tables\": []\x7d" (by decide) (by decide)⟩

/-- Claim C5: each triggering control is disabled in the in-flight state of
its own request and re-enabled in the final state, whatever the outcome
(success, HTTP error, network error or parse error alike). -/
theorem trigger_disabled_during_request (ui : CondenseUI) (pui : ParseUI)
    (oc : FetchOutcome CondenseResult) (op : FetchOutcome ParseTablesResult) :
    (processArticleClick ui oc).1.processBtnDisabled = true ∧
      (processArticleClick ui oc).2.processBtnDisabled = false ∧
      (parseTablesClick pui op).1.parseBtnDisabled = true ∧
      (parseTablesClick pui op).2.parseBtnDisabled = false :=
  ⟨rfl, rfl, rfl, rfl⟩

/-- Claim C6: when the clipboard write resolves, each copy handler puts
the exact current value of its associated field on the clipboard, shows
"Copied!", and schedules a 1200 ms revert to the button's original label
("Copy condensed" for the article button, "Copy JSON" for the per-block
button, the label it is created with); the per-block textarea's value is
the stringified table. -/
theorem copy_success_feedback (v label : String) (t : Table) :
    copyArticleClick v label ClipboardOutcome.resolved =
        { clipboardWritten := some v, btnText := "Copied!",
          scheduledRevert := some (1200, copyArticleBtnInitialLabel),
          unhandledRejection := none } ∧
      copyJsonClick v label ClipboardOutcome.resolved =
        { clipboardWritten := some v, btnText := "Copied!",
          scheduledRevert := some (1200, "Copy JSON"),
          unhandledRejection := none } ∧
      blockCopyBtnText (renderTableBlock t) = some "Copy JSON" ∧
      blockJsonValue (renderTableBlock t) = some (jsonStringifyTable t) :=
  ⟨rfl, rfl, rfl, rfl⟩

/-- Claim C7: the read-only table renderer is defensive — a missing
headers field renders exactly like an empty headers list, a missing rows
field exactly like an empty rows list, and the rendered body consists of
one row per data row with one cell per entry, whatever the headers are,
so mismatched row lengths render completely (the renderer is total). -/
theorem renderer_defensive (t : Table) (hs : Option (List String)) :
    renderReadonlyTable { t with headers := none } =
        renderReadonlyTable { t with headers := some [] } ∧
      renderReadonlyTable { t with rows := none } =
        renderReadonlyTable { t with rows := some [] } ∧
      tableTbody (renderReadonlyTable { t with headers := hs }) =
        some (Dom.elem "tbody" []
          ((t.rows.getD []).map (fun row =>
            Dom.elem "tr" [] (row.map (fun cell => Dom.elem "td" [] [Dom.text cell]))))) :=
  ⟨rfl, rfl, rfl⟩

/-- Claim C8: a rejected clipboard write is handled by no code path —
neither copy handler catches it or shows any message, the label is left
exactly as it was, no revert is scheduled, and the rejection escapes the
handler unhandled. -/
theorem clipboard_failure_unhandled (v label msg : String) :
    copyArticleClick v label (ClipboardOutcome.rejected msg) =
        { clipboardWritten := none, btnText := label,
          scheduledRevert := none, unhandledRejection := some msg } ∧
      copyJsonClick v label (ClipboardOutcome.rejected msg) =
        { clipboardWritten := none, btnText := label,
          scheduledRevert := none, unhandledRejection := some msg } :=
  ⟨rfl, rfl⟩

/-- Claim C9: the title line of a rendered block shows "(untitled)" when
the title field is absent, empty, or whitespace-only, and otherwise shows
the title trimmed of surrounding whitespace. -/
theorem untitled_placeholder (t : Table) :
    blockTitleText (renderTableBlock t) =
      some (if jsTrim (t.title.getD "") = "" then "(untitled)"
            else jsTrim (t.title.getD "")) := by
  obtain ⟨title, headers, rows⟩ := t
  cases title with
  | none => rfl
  | some s =>
    by_cases hs : s = ""
    · subst hs; rfl
    · simp [renderTableBlock, renderReadonlyTable, blockTitleText, jsOrUndef, jsOrString, hs]

/-- Claim C10: a null or undefined tables field renders exactly like an
empty table list — the single "No tables found." hint. -/
theorem missing_tables_field_same_message :
    renderTables none =
        [Dom.elem "p" [("class", "hint")] [Dom.text "No tables found."]] ∧
      renderTables none = renderTables (some []) :=
  ⟨rfl, rfl⟩
